import Mathlib

/-!
Shallow embedding of the chat-turn orchestration engine:
`ProcessChatMessageCommand` (app/commands/threads/process_chat_message.py),
the `text_to_sql` tool and its `ensure_limit` post-processor
(app/services/llm/tools/text_to_sql.py), and the
`ResponseQualityService` quality loop (app/services/llm/response_quality.py).

External collaborators (the LLM client, the DuckDB datastore, prompt
template rendering and history trimming) are modelled as oracle
parameters: the code under verification only branches on their outcomes,
never on their internals.  Python string truthiness, `str.lower`, the
`\bLIMIT\b` regex and `str.rstrip(';')` are modelled explicitly over
ASCII character lists.
-/

/-! ## `ensure_limit` (app/services/llm/tools/text_to_sql.py, lines 10-15) -/

/-- Python regex word character (`\w`), modelled over ASCII. -/
def isWordChar (c : Char) : Bool := c.isAlphanum || c == '_'

/-- Does the case-insensitive word `LIMIT` occur in `cs` starting at index `i`,
with a word boundary (`\b`) on each side?  Mirrors `re.search(r'\bLIMIT\b',
sql, re.IGNORECASE)` restricted to position `i`. -/
def limitAt (cs : List Char) (i : Nat) : Bool :=
  (((cs.drop i).take 5).map Char.toLower == ['l', 'i', 'm', 'i', 't'])
  && (i == 0 || !isWordChar (cs.getD (i - 1) ' '))
  && (decide (cs.length ≤ i + 5) || !isWordChar (cs.getD (i + 5) ' '))

/-- `re.search(r'\bLIMIT\b', sql, re.IGNORECASE)` is not `None`. -/
def hasLimitKeyword (sql : String) : Bool :=
  (List.range sql.data.length).any (fun i => limitAt sql.data i)

/-- Python `str.rstrip(';')`: drop every trailing semicolon. -/
def rstrip_semi (cs : List Char) : List Char :=
  ((cs.reverse).dropWhile (fun c => c == ';')).reverse

/-- `ensure_limit(sql, default_limit)`: if a `LIMIT` keyword is already
present, the text is returned unchanged; otherwise trailing semicolons are
stripped and `' LIMIT {default_limit};'` is appended. -/
def ensure_limit (sql : String) (default_limit : Nat) : String :=
  if hasLimitKeyword sql then sql
  else ⟨rstrip_semi sql.data ++ (" LIMIT " ++ toString default_limit ++ ";").data⟩

/-! ## `ResponseQualityService` (app/services/llm/response_quality.py)

The LLM chat call `self.llm_session.chat(messages=...)` is modelled as an
oracle `QChat` from the prompt (a list of role/content pairs) to either an
exception message (`Except.error`) or the first choice's message content
(`Except.ok`, `none` when the provider returns a null content). -/

/-- Outcome of one `llm_session.chat` call made by the quality service. -/
def QChat : Type := List (String × String) → Except String (Option String)

/-- Python substring membership `needle in hay` over character lists. -/
def containsSubstring (needle : List Char) : List Char → Bool
  | [] => needle.isEmpty
  | c :: rest => needle.isPrefixOf (c :: rest) || containsSubstring needle rest

/-- Python `str.lower()`, modelled over ASCII. -/
def py_lower (s : String) : String := ⟨s.data.map Char.toLower⟩

/-- Python `str(x)` for an optional string: `None` prints as `"None"`. -/
def py_str_opt : Option String → String
  | none => "None"
  | some s => s

/-- The fixed keyword set of `_assess_improvement_needed`. -/
def improvement_keywords : List String :=
  ["improve", "enhance", "better", "could be", "should", "needs",
   "lacking", "missing", "unclear", "confusing", "incomplete"]

/-- `_assess_improvement_needed(evaluation_text)`: case-insensitive substring
test of each deficiency keyword against the lowered critique text. -/
def assess_improvement_needed (evaluation_text : String) : Bool :=
  let evaluation_lower := py_lower evaluation_text
  improvement_keywords.any (fun keyword => containsSubstring keyword.data evaluation_lower.data)

/-- The user-role content of the evaluation request (the f-string in
`evaluate_response_quality`); `{sql_result if sql_result else 'N/A'}` is
Python truthiness: `None` and the empty string both print as `N/A`. -/
def evaluation_user_content (user_question : String) (response : Option String)
    (sql_result : Option String) : String :=
  "Please evaluate the quality of this response:\n\nUser Question: " ++ user_question
  ++ "\n\nResponse: " ++ py_str_opt response
  ++ "\n\nSQL Result: "
  ++ (match sql_result with
      | some s => if s.isEmpty then "N/A" else s
      | none => "N/A")
  ++ "\n\nPlease provide:\n1. Quality scores (1-10) for each criterion\n2. Specific feedback for improvement\n3. Overall assessment"

/-- The user-role content of the improvement request (the f-string in
`improve_response`). -/
def improvement_user_content (user_question : String) (original_response : Option String)
    (evaluation_feedback : String) : String :=
  "Please improve this response based on the evaluation feedback:\n\nUser Question: " ++ user_question
  ++ "\n\nOriginal Response: " ++ py_str_opt original_response
  ++ "\n\nEvaluation Feedback: " ++ evaluation_feedback
  ++ "\n\nPlease provide an improved version that addresses the feedback while maintaining accuracy."

/-- `evaluate_response_quality`: build the evaluation prompt, call the model,
and classify.  Every exception inside the `try` — including the
`AttributeError` from `None.lower()` when the model returns null content —
is caught and mapped to `("Error in evaluation", needs_improvement := false)`.
`rq_prompt` is the system prefix from `response_quality_prompt()` (prompt
template rendering is an out-of-scope collaborator). -/
def evaluate_response_quality (rq_prompt : List (String × String)) (qchat : QChat)
    (user_question : String) (response : Option String) (sql_result : Option String) :
    String × Bool :=
  match qchat (rq_prompt ++ [("user", evaluation_user_content user_question response sql_result)]) with
  | Except.error _ => ("Error in evaluation", false)
  | Except.ok none => ("Error in evaluation", false)
  | Except.ok (some evaluation_text) =>
      (evaluation_text, assess_improvement_needed evaluation_text)

/-- `improve_response`: build the improvement prompt and call the model;
any exception is caught and the original response is returned. -/
def improve_response (ri_prompt : List (String × String)) (qchat : QChat)
    (user_question : String) (original_response : Option String)
    (evaluation_feedback : String) : Option String :=
  match qchat (ri_prompt ++ [("user", improvement_user_content user_question original_response evaluation_feedback)]) with
  | Except.error _ => original_response
  | Except.ok content => content

/-- `process_response_with_quality_improvement`: no-op when disabled;
otherwise evaluate, and improve only when the critique is classified as
needing improvement.  The outer `try` is unreachable in the model because
both inner calls catch their own exceptions. -/
def process_response_with_quality_improvement
    (rq_prompt ri_prompt : List (String × String)) (qchat : QChat)
    (user_question : String) (response : Option String) (sql_result : Option String)
    (enable_improvement : Bool) : Option String :=
  if !enable_improvement then response
  else
    let evaluation := evaluate_response_quality rq_prompt qchat user_question response sql_result
    if evaluation.2 then
      improve_response ri_prompt qchat user_question response evaluation.1
    else response

/-! ## Data model of `ProcessChatMessageCommand`
(app/commands/threads/process_chat_message.py)

Chat messages are Python dicts; we model them as a record with optional
fields (`none` = key absent or value `None`).  The provider response is
accessed only through `response.choices[0]`, so the embedding carries that
first choice directly. -/

/-- The `function` field of a provider tool call: name and raw JSON
arguments text. -/
structure ToolCallFunction where
  name : String
  arguments : String
deriving DecidableEq

/-- A provider tool call (`response.choices[0].message.tool_calls[i]`). -/
structure ToolCall where
  id : String
  function : ToolCallFunction
deriving DecidableEq

/-- The `tool_calls` entry dict built by `execute` (lines 80-90):
`{"id": ..., "type": "function", "function": {"name": ..., "arguments": ...}}`. -/
structure ToolCallRecord where
  id : String
  type : String
  function : ToolCallFunction
deriving DecidableEq

/-- A chat message dict.  `timestamp` is a Python tuple of timestamp
strings, modelled as a list. -/
structure Message where
  id : Option String
  role : String
  content : Option String
  timestamp : Option (List String)
  tool_calls : Option (List ToolCallRecord)
  tool_call_id : Option String
  finish_reason : Option String
deriving DecidableEq

/-- `response.choices[0].message`. -/
structure ChatChoiceMessage where
  content : Option String
  tool_calls : List ToolCall
deriving DecidableEq

/-- `response.choices[0]`. -/
structure ChatChoice where
  message : ChatChoiceMessage
  finish_reason : String
deriving DecidableEq

/-- Outcome of the `self.llm_session.chat(**chat_kwargs)` call: a normal
response, a raised `BadRequestError`, or any other raised exception. -/
inductive ChatOutcome where
  | success : ChatChoice → ChatOutcome
  | badRequest : String → ChatOutcome
  | failure : String → ChatOutcome
deriving DecidableEq

/-- The exceptions `execute` can let escape: a re-raised `BadRequestError`,
a `ValidationException`, or an uncaught tool exception. -/
inductive RaisedError where
  | badRequestError : String → RaisedError
  | validationError : String → RaisedError
  | toolError : String → RaisedError
deriving DecidableEq

/-- A tool run result: Python `str`, or any other (structured) value of
type `α` that will be serialized with `json.dumps`. -/
inductive ToolRun (α : Type) where
  | strVal : String → ToolRun α
  | structuredVal : α → ToolRun α

instance {α : Type} [DecidableEq α] : DecidableEq (ToolRun α) := fun a b =>
  match a, b with
  | ToolRun.strVal s, ToolRun.strVal t =>
      if h : s = t then isTrue (by rw [h]) else isFalse (by intro hc; cases hc; exact h rfl)
  | ToolRun.strVal _, ToolRun.structuredVal _ => isFalse (by intro hc; cases hc)
  | ToolRun.structuredVal _, ToolRun.strVal _ => isFalse (by intro hc; cases hc)
  | ToolRun.structuredVal x, ToolRun.structuredVal y =>
      if h : x = y then isTrue (by rw [h]) else isFalse (by intro hc; cases hc; exact h rfl)

/-- `content = tool_run if isinstance(tool_run, str) else json.dumps(tool_run)`. -/
def tool_run_content {α : Type} (dumps : α → String) : ToolRun α → String
  | ToolRun.strVal s => s
  | ToolRun.structuredVal a => dumps a

/-- Python `str(tool_run)` as used when the raw run value reaches an
f-string (the `repr`-style rendering of a structured value is supplied by
the environment). -/
def py_str_tool_run {α : Type} (reprA : α → String) : ToolRun α → String
  | ToolRun.strVal s => s
  | ToolRun.structuredVal a => reprA a

/-- Oracle environment of one `execute`/`execute_stream` invocation:
the serializers for structured tool values, the tool dispatcher
(`toolkit.run_tool`, whose exceptions are NOT caught here), the quality
service's model oracle and prompt prefixes, the quality-loop flag from app
config, and the `uuid4()` / `get_timestamp` supplies indexed by the order
in which `format_message` is called (0 = assistant message, `j+1` = the
`j`-th tool message). -/
structure ExecuteEnv (α : Type) where
  dumps : α → String
  reprA : α → String
  runTool : ToolCall → Except String (ToolRun α)
  qchat : QChat
  rq_prompt : List (String × String)
  ri_prompt : List (String × String)
  enable_improvement : Bool
  fresh : Nat → String
  tstamp : Nat → String

/-- `format_message(role, content, **kwargs)` (lines 221-229): a dict with
a fresh UUID string id and a ONE-ELEMENT TUPLE wrapping the timestamp
(the source writes `(get_timestamp(with_nanoseconds=True),)`). -/
def format_message (uuid ts role : String) (content : Option String)
    (tool_calls : Option (List ToolCallRecord)) (tool_call_id : Option String)
    (finish_reason : Option String) : Message :=
  { id := some uuid, role := role, content := content, timestamp := some [ts],
    tool_calls := tool_calls, tool_call_id := tool_call_id, finish_reason := finish_reason }

/-- The dict comprehension of lines 80-90. -/
def mk_tool_call_record (tc : ToolCall) : ToolCallRecord :=
  { id := tc.id, type := "function", function := { name := tc.function.name, arguments := tc.function.arguments } }

/-- The assistant message built from `response_message_config`: in the
`tool_calls` branch the config additionally carries the `tool_calls`
records.  `format_message` is called for it before any tool runs, so it
draws supply index 0. -/
def mk_assistant_message {α : Type} (env : ExecuteEnv α) (choice : ChatChoice) : Message :=
  if choice.finish_reason == "tool_calls" then
    format_message (env.fresh 0) (env.tstamp 0) "assistant" choice.message.content
      (some (choice.message.tool_calls.map mk_tool_call_record)) none (some choice.finish_reason)
  else
    format_message (env.fresh 0) (env.tstamp 0) "assistant" choice.message.content
      none none (some choice.finish_reason)

/-- The `j`-th tool message (the loop body of lines 94-104): role `tool`,
`tool_call_id` = the run tool call's id, content = the string result or its
JSON serialization. -/
def mk_tool_message {α : Type} (env : ExecuteEnv α) (j : Nat) (pr : ToolCall × ToolRun α) : Message :=
  format_message (env.fresh (j + 1)) (env.tstamp (j + 1)) "tool"
    (some (tool_run_content env.dumps pr.2)) none (some pr.1.id) none

/-- Run the tool calls in provider order; the first exception propagates
(the non-streaming path does not catch tool failures). -/
def run_tool_calls {α : Type} (runTool : ToolCall → Except String (ToolRun α)) :
    List ToolCall → Except String (List (ToolCall × ToolRun α))
  | [] => Except.ok []
  | tc :: rest =>
    match runTool tc with
    | Except.error e => Except.error e
    | Except.ok r =>
      match run_tool_calls runTool rest with
      | Except.error e => Except.error e
      | Except.ok prs => Except.ok ((tc, r) :: prs)

/-- `get_user_question` (lines 238-245): content of the most recent
user-role message, `""` when there is none.  A `None`/absent content is
modelled by the dict-get default `""`. -/
def get_user_question (history : List Message) : String :=
  match history.reverse.find? (fun m => m.role == "user") with
  | some m => m.content.getD ""
  | none => ""

/-- `ProcessChatMessageCommand.execute` (lines 45-125).  Request assembly
(`prepare_chat_messages`) only feeds the chat oracle and is absorbed into
the `chat` outcome.  `sql_result` keeps the LAST run of a tool named
`text_to_sql` (the loop reassigns it on every match); the
`improved_content != content` guard only gates a log line, so the final
assistant content is always the quality loop's output. -/
def execute {α : Type} (env : ExecuteEnv α) (history : List Message)
    (chat : ChatOutcome) : Except RaisedError (List Message) :=
  if history.isEmpty then
    Except.error (RaisedError.validationError "Chat messages are required.")
  else
    match chat with
    | ChatOutcome.badRequest e => Except.error (RaisedError.badRequestError e)
    | ChatOutcome.failure _ =>
        Except.error (RaisedError.validationError "Error in fetching chat response.")
    | ChatOutcome.success choice =>
      match (if choice.finish_reason == "tool_calls"
             then run_tool_calls env.runTool choice.message.tool_calls
             else Except.ok []) with
      | Except.error e => Except.error (RaisedError.toolError e)
      | Except.ok prs =>
        let response_message := mk_assistant_message env choice
        let tool_messages := prs.enum.map (fun p => mk_tool_message env p.1 p.2)
        let sql_result :=
          ((prs.filter (fun p => p.1.function.name == "text_to_sql")).getLast?).map
            (fun p => py_str_tool_run env.reprA p.2)
        let user_question := get_user_question history
        let improved_content := process_response_with_quality_improvement
          env.rq_prompt env.ri_prompt env.qchat user_question
          response_message.content sql_result env.enable_improvement
        Except.ok (history ++ { response_message with content := improved_content } :: tool_messages)

/-- The assistant message `execute` commits: the formatted assistant message
with its content replaced by the output of the quality loop (the
`improved_content != content` guard in the source only gates a log line). -/
def committed_assistant {α : Type} (env : ExecuteEnv α) (history : List Message)
    (choice : ChatChoice) (prs : List (ToolCall × ToolRun α)) : Message :=
  { mk_assistant_message env choice with
    content := process_response_with_quality_improvement env.rq_prompt env.ri_prompt env.qchat
      (get_user_question history) (mk_assistant_message env choice).content
      (((prs.filter (fun p => p.1.function.name == "text_to_sql")).getLast?).map
        (fun p => py_str_tool_run env.reprA p.2)) env.enable_improvement }

/-! ## Streaming path (`execute_stream`, lines 127-207) -/

/-- A stream-delta tool call: `tool_call.function` can be `None`
(the code guards on `if tool_call.function:`). -/
structure StreamToolCall where
  id : String
  function : Option ToolCallFunction
deriving DecidableEq

/-- `chunk.choices[0].delta`. -/
structure StreamDelta where
  content : Option String
  tool_calls : Option (List StreamToolCall)
deriving DecidableEq

/-- One chunk of the model stream, projected to `chunk.choices[0]`. -/
structure StreamChunk where
  delta : StreamDelta
  finish_reason : Option String
deriving DecidableEq

/-- An event dict yielded by `execute_stream`:
`{"type": ..., "content": ..., "finish_reason": ...}`. -/
structure StreamEvent where
  type : String
  content : String
  finish_reason : Option String
deriving DecidableEq

/-- How the underlying model stream ends after delivering its chunks:
normally, with a raised `BadRequestError`, or with any other exception. -/
inductive StreamEnd where
  | done : StreamEnd
  | badRequestErr : String → StreamEnd
  | failureErr : String → StreamEnd
deriving DecidableEq

/-- Python truthiness of an optional string: `None` and `""` are falsy. -/
def py_truthy_str : Option String → Bool
  | none => false
  | some s => !s.isEmpty

/-- The events produced for one stream tool call (lines 159-185): nothing
when `tool_call.function` is `None`; otherwise the tool is executed and its
failure is caught per call and downgraded to an in-band error event. -/
def stream_tool_events {α : Type} (dumps : α → String)
    (runTool : StreamToolCall → Except String (ToolRun α)) (tc : StreamToolCall) :
    List StreamEvent :=
  match tc.function with
  | none => []
  | some _ =>
    match runTool tc with
    | Except.ok (ToolRun.strVal s) => [{ type := "content", content := s, finish_reason := none }]
    | Except.ok (ToolRun.structuredVal a) =>
        [{ type := "tool_result", content := dumps a, finish_reason := none }]
    | Except.error e =>
        [{ type := "error", content := "Tool call error: " ++ e, finish_reason := some "error" }]

/-- The events produced for one chunk (the loop body, lines 146-192).
`if chunk.choices[0].delta.content:` and `elif chunk.choices[0].finish_reason:`
are Python truthiness tests; a `tool_calls` value of `None` (and the empty
list, over which the `for` loop is vacuous) yields nothing. -/
def process_stream_chunk {α : Type} (dumps : α → String)
    (runTool : StreamToolCall → Except String (ToolRun α)) (chunk : StreamChunk) :
    List StreamEvent :=
  if py_truthy_str chunk.delta.content then
    [{ type := "content", content := chunk.delta.content.getD "", finish_reason := none }]
  else if py_truthy_str chunk.finish_reason then
    if chunk.finish_reason == some "tool_calls" then
      match chunk.delta.tool_calls with
      | none => []
      | some tcs => tcs.flatMap (stream_tool_events dumps runTool)
    else
      [{ type := "finish", content := "", finish_reason := chunk.finish_reason }]
  else []

/-- The trailing event produced by the `except` clauses around the chunk
loop (lines 194-207). -/
def stream_trailing (fin : StreamEnd) : List StreamEvent :=
  match fin with
  | StreamEnd.done => []
  | StreamEnd.badRequestErr e => [{ type := "error", content := e, finish_reason := some "error" }]
  | StreamEnd.failureErr _ =>
      [{ type := "error", content := "Error in fetching chat response.", finish_reason := some "error" }]

/-- `ProcessChatMessageCommand.execute_stream`: validate, then emit the
events of each chunk in order, then whatever the stream's termination
produces.  The generator is modelled as the materialized event list. -/
def execute_stream {α : Type} (dumps : α → String)
    (runTool : StreamToolCall → Except String (ToolRun α)) (history : List Message)
    (chunks : List StreamChunk) (fin : StreamEnd) :
    Except RaisedError (List StreamEvent) :=
  if history.isEmpty then
    Except.error (RaisedError.validationError "Chat messages are required.")
  else
    Except.ok (chunks.flatMap (process_stream_chunk dumps runTool) ++ stream_trailing fin)

/-! ## `text_to_sql` tool (app/services/llm/tools/text_to_sql.py, lines 17-92)

The structured-output SQL generation call and the datastore execution are
oracles: `gen` is the outcome of
`llm_session.get_structured_output(...).query`, and `exec` maps the
post-processed SQL text to a raised exception, an empty result (`None`,
rendered as `"No data found."`), or a tabular value rendered by
`to_markdown` (`toMd`). -/

/-- Modelled from the spec: `DuckDBDatastore.execute` lives in
app/services/datastore/duckdb_datastore.py, which is not under src/; the
spec describes its boundary as `execute(sql_text) -> tabular result or
empty`.  An execution outcome is therefore a raised exception
(`Except.error`), an empty result (`Except.ok none`), or a tabular value
(`Except.ok (some _)`). -/
abbrev DatastoreExec (β : Type) : Type := String → Except String (Option β)

/-- `text_to_sql(query)`: generate SQL for the natural-language `query`,
cap it with `ensure_limit(_, 20)`, execute, render; every exception inside
the `try` becomes the returned error string.  Total by construction: the
tool never raises.  `gen query` is the generation oracle applied to the
query (prompt assembly is folded into the oracle). -/
def text_to_sql {β : Type} (toMd : β → String)
    (gen : String → Except String String) (exec : DatastoreExec β)
    (query : String) : String :=
  match gen query with
  | Except.error e => "Error generating or executing SQL: " ++ e
  | Except.ok q =>
    let generated_sql := ensure_limit q 20
    match exec generated_sql with
    | Except.error e => "Error generating or executing SQL: " ++ e
    | Except.ok none => "No data found."
    | Except.ok (some result) => toMd result

/-! ## Concrete fixtures

Closed instances used to evaluate the embedding on explicit inputs. -/

/-- An environment whose oracles are all trivial: the tool returns a fixed
markdown string, every quality model call fails, and the quality loop is
disabled (the config flag set to `False`). -/
def wit_env : ExecuteEnv Unit :=
  { dumps := fun _ => "null", reprA := fun _ => "null",
    runTool := fun _ => Except.ok (ToolRun.strVal "| a |"),
    qchat := fun _ => Except.error "down",
    rq_prompt := [], ri_prompt := [], enable_improvement := false,
    fresh := fun n => "u" ++ toString n, tstamp := fun n => "t" ++ toString n }

/-- A one-message history holding a single user question. -/
def wit_history : List Message :=
  [{ id := none, role := "user", content := some "What is Q1 revenue?", timestamp := none,
     tool_calls := none, tool_call_id := none, finish_reason := none }]

/-- A plain-text model response (finish reason `stop`). -/
def wit_choice_stop : ChatChoice :=
  { message := { content := some "Q1 revenue was X.", tool_calls := [] },
    finish_reason := "stop" }

/-- A single `text_to_sql` tool call request. -/
def wit_tc : ToolCall :=
  { id := "call_1", function := { name := "text_to_sql", arguments := "query args" } }

/-- A tool-invocation model response carrying `wit_tc`. -/
def wit_choice_tool : ChatChoice :=
  { message := { content := none, tool_calls := [wit_tc] }, finish_reason := "tool_calls" }

/-- The assistant message `execute wit_env` commits for `wit_choice_stop`. -/
def wit_msg_stop : Message :=
  { id := some "u0", role := "assistant", content := some "Q1 revenue was X.",
    timestamp := some ["t0"], tool_calls := none, tool_call_id := none,
    finish_reason := some "stop" }

/-- The assistant message `execute wit_env` commits for `wit_choice_tool`. -/
def wit_msg_assistant : Message :=
  { id := some "u0", role := "assistant", content := none, timestamp := some ["t0"],
    tool_calls := some [{ id := "call_1", type := "function",
                          function := { name := "text_to_sql", arguments := "query args" } }],
    tool_call_id := none, finish_reason := some "tool_calls" }

/-- The tool message `execute wit_env` commits for `wit_choice_tool`. -/
def wit_msg_tool : Message :=
  { id := some "u1", role := "tool", content := some "| a |", timestamp := some ["t1"],
    tool_calls := none, tool_call_id := some "call_1", finish_reason := none }

/-- A stream tool call whose `function` attribute is present. -/
def wit_stc : StreamToolCall :=
  { id := "call_9", function := some { name := "text_to_sql", arguments := "query args" } }

/-- A stream tool runner that always raises. -/
def wit_srun_err : StreamToolCall → Except String (ToolRun Unit) :=
  fun _ => Except.error "boom"

/-- Trivial structured-value serializer for the witnesses. -/
def wit_dumps : Unit → String := fun _ => "null"

/-- A quality-loop model oracle that always raises. -/
def wit_qchat_err : QChat := fun _ => Except.error "down"

/-- A SQL-generation oracle returning a fixed statement. -/
def wit_gen : String → Except String String := fun _ => Except.ok "SELECT * FROM account"

/-- A datastore oracle returning an empty result set. -/
def wit_exec_none : DatastoreExec Unit := fun _ => Except.ok none

/-- Trivial markdown renderer for the witnesses. -/
def wit_toMd : Unit → String := fun _ => "| a |"

/-! ## Helper lemmas -/

lemma limit_suffix_data (d : Nat) :
    (" LIMIT " ++ toString d ++ ";").data =
      ' ' :: 'L' :: 'I' :: 'M' :: 'I' :: 'T' :: ' ' :: ((toString d).data ++ [';']) := by
  simp [String.data_append]

lemma limitAt_append (pre : List Char) (d : Nat) :
    limitAt (pre ++ (" LIMIT " ++ toString d ++ ";").data) (pre.length + 1) = true := by
  rw [limit_suffix_data]
  unfold limitAt
  have hdrop : ((pre ++ ' ' :: 'L' :: 'I' :: 'M' :: 'I' :: 'T' :: ' ' :: ((toString d).data ++ [';'])).drop (pre.length + 1)) =
      'L' :: 'I' :: 'M' :: 'I' :: 'T' :: ' ' :: ((toString d).data ++ [';']) := by
    have : pre ++ ' ' :: 'L' :: 'I' :: 'M' :: 'I' :: 'T' :: ' ' :: ((toString d).data ++ [';']) =
        (pre ++ [' ']) ++ ('L' :: 'I' :: 'M' :: 'I' :: 'T' :: ' ' :: ((toString d).data ++ [';'])) := by
      simp
    rw [this]
    exact List.drop_left' (by simp)
  rw [hdrop]
  have hgetD1 : (pre ++ ' ' :: 'L' :: 'I' :: 'M' :: 'I' :: 'T' :: ' ' :: ((toString d).data ++ [';'])).getD (pre.length + 1 - 1) ' ' = ' ' := by
    rw [Nat.add_sub_cancel, List.getD_append_right _ _ _ _ (Nat.le_refl _), Nat.sub_self]
    rfl
  have hgetD2 : (pre ++ ' ' :: 'L' :: 'I' :: 'M' :: 'I' :: 'T' :: ' ' :: ((toString d).data ++ [';'])).getD (pre.length + 1 + 5) ' ' = ' ' := by
    rw [List.getD_append_right _ _ _ _ (by omega)]
    have : pre.length + 1 + 5 - pre.length = 6 := by omega
    rw [this]
    rfl
  rw [hgetD1, hgetD2]
  simp [isWordChar]

lemma hasLimitKeyword_append (pre : List Char) (d : Nat) :
    hasLimitKeyword ⟨pre ++ (" LIMIT " ++ toString d ++ ";").data⟩ = true := by
  apply List.any_eq_true.mpr
  refine ⟨pre.length + 1, ?_, ?_⟩
  · apply List.mem_range.mpr
    show pre.length + 1 < (String.mk (pre ++ (" LIMIT " ++ toString d ++ ";").data)).data.length
    have : (String.mk (pre ++ (" LIMIT " ++ toString d ++ ";").data)).data =
        pre ++ (" LIMIT " ++ toString d ++ ";").data := rfl
    rw [this, limit_suffix_data]
    simp
  · exact limitAt_append pre d

lemma ensure_limit_not_has (sql : String) (d : Nat) (h : hasLimitKeyword sql = false) :
    ensure_limit sql d = ⟨rstrip_semi sql.data ++ (" LIMIT " ++ toString d ++ ";").data⟩ := by
  simp [ensure_limit, h]

lemma ensure_limit_idem (sql : String) (d : Nat) :
    ensure_limit (ensure_limit sql d) d = ensure_limit sql d := by
  by_cases h : hasLimitKeyword sql = true
  · simp [ensure_limit, h]
  · rw [ensure_limit_not_has sql d (by simpa using h)]
    unfold ensure_limit
    rw [hasLimitKeyword_append]
    simp

lemma execute_success_ok {α : Type} (env : ExecuteEnv α) (history : List Message)
    (choice : ChatChoice) (res : List Message)
    (hok : execute env history (ChatOutcome.success choice) = Except.ok res) :
    ∃ prs : List (ToolCall × ToolRun α),
      (if choice.finish_reason == "tool_calls"
       then run_tool_calls env.runTool choice.message.tool_calls
       else Except.ok []) = Except.ok prs ∧
      res = history ++ committed_assistant env history choice prs ::
        prs.enum.map (fun p => mk_tool_message env p.1 p.2) := by
  simp only [execute] at hok
  by_cases hni : history.isEmpty
  · rw [if_pos hni] at hok
    exact absurd hok (by simp)
  · rw [if_neg hni] at hok
    cases hrn : (if choice.finish_reason == "tool_calls"
                 then run_tool_calls env.runTool choice.message.tool_calls
                 else Except.ok ([] : List (ToolCall × ToolRun α))) with
    | error e => rw [hrn] at hok; exact absurd hok (by simp)
    | ok prs =>
      rw [hrn] at hok
      simp only at hok
      refine ⟨prs, rfl, ?_⟩
      have := Except.ok.inj hok
      exact this.symm

lemma run_tool_calls_fst {α : Type} (runTool : ToolCall → Except String (ToolRun α)) :
    ∀ (tcs : List ToolCall) (prs : List (ToolCall × ToolRun α)),
      run_tool_calls runTool tcs = Except.ok prs → prs.map Prod.fst = tcs := by
  intro tcs
  induction tcs with
  | nil => intro prs h; simp [run_tool_calls] at h; simp [← h]
  | cons tc rest ih =>
    intro prs h
    simp only [run_tool_calls] at h
    cases hr : runTool tc with
    | error e => rw [hr] at h; exact absurd h (by simp)
    | ok r =>
      rw [hr] at h
      cases hrest : run_tool_calls runTool rest with
      | error e => rw [hrest] at h; exact absurd h (by simp)
      | ok prs' =>
        rw [hrest] at h
        have := Except.ok.inj h
        subst this
        simp [ih prs' hrest]

lemma committed_assistant_role {α : Type} (env : ExecuteEnv α) (history : List Message)
    (choice : ChatChoice) (prs : List (ToolCall × ToolRun α)) :
    (committed_assistant env history choice prs).role = "assistant" := by
  unfold committed_assistant mk_assistant_message format_message
  by_cases h : choice.finish_reason == "tool_calls" <;> simp [h]

lemma mem_enum_map {β γ : Type} (l : List β) (f : Nat × β → γ) (x : γ)
    (hx : x ∈ l.enum.map f) : ∃ (j : Nat) (hj : j < l.length), x = f (j, l[j]) := by
  obtain ⟨i, hi, heq⟩ := List.mem_iff_getElem.mp hx
  have hi' : i < l.enum.length := by simpa using hi
  have hil : i < l.length := by simpa [List.enum_length] using hi'
  refine ⟨i, hil, ?_⟩
  rw [← heq, List.getElem_map, List.getElem_enum]

lemma committed_assistant_tool_calls {α : Type} (env : ExecuteEnv α) (history : List Message)
    (choice : ChatChoice) (prs : List (ToolCall × ToolRun α))
    (h : (choice.finish_reason == "tool_calls") = true) :
    (committed_assistant env history choice prs).tool_calls =
      some (choice.message.tool_calls.map mk_tool_call_record) := by
  unfold committed_assistant mk_assistant_message format_message
  simp [h]

lemma committed_assistant_id {α : Type} (env : ExecuteEnv α) (history : List Message)
    (choice : ChatChoice) (prs : List (ToolCall × ToolRun α)) :
    (committed_assistant env history choice prs).id = some (env.fresh 0) ∧
    (committed_assistant env history choice prs).timestamp = some [env.tstamp 0] := by
  unfold committed_assistant mk_assistant_message format_message
  by_cases h : choice.finish_reason == "tool_calls" <;> simp [h]

/-! ## Claim theorems -/

/-- Claim C1: for every non-empty input history, when `execute` returns it
returns the input sequence strictly extended in place — every original
message preserved unmodified in its original position — by exactly one
assistant message followed by zero or more tool messages, with zero tool
messages whenever the finish reason of the model response is not
`"tool_calls"`. -/
theorem execute_strict_extension {α : Type} (env : ExecuteEnv α) (history : List Message)
    (choice : ChatChoice) (res : List Message) (hne : history ≠ [])
    (hok : execute env history (ChatOutcome.success choice) = Except.ok res) :
    ∃ (a : Message) (tms : List Message),
      res = history ++ a :: tms ∧ a.role = "assistant" ∧
      (∀ m ∈ tms, m.role = "tool") ∧
      (choice.finish_reason ≠ "tool_calls" → tms = []) := by
  obtain ⟨prs, hrn, hres⟩ := execute_success_ok env history choice res hok
  refine ⟨committed_assistant env history choice prs,
          prs.enum.map (fun p => mk_tool_message env p.1 p.2), hres,
          committed_assistant_role env history choice prs, ?_, ?_⟩
  · intro m hm
    obtain ⟨j, hj, hmj⟩ := mem_enum_map prs _ m hm
    rw [hmj]
    rfl
  · intro hfr
    have hbeq : (choice.finish_reason == "tool_calls") = false := by
      simpa using hfr
    rw [hbeq] at hrn
    simp at hrn
    simp [← hrn]

/-- Witness for C1: the plain-text scenario on a one-message history. -/
theorem execute_strict_extension_witness :
    ∃ (a : Message) (tms : List Message),
      wit_history ++ [wit_msg_stop] = wit_history ++ a :: tms ∧ a.role = "assistant" ∧
      (∀ m ∈ tms, m.role = "tool") ∧
      (wit_choice_stop.finish_reason ≠ "tool_calls" → tms = []) :=
  execute_strict_extension wit_env wit_history wit_choice_stop
    (wit_history ++ [wit_msg_stop]) (by decide) (by rfl)

/-- Claim C2: in `execute`, a `BadRequestError` from the model call is
re-raised verbatim, while any other exception is replaced by a
`ValidationException` whose message is exactly
`"Error in fetching chat response."`, the original exception text never
reaching the caller. -/
theorem execute_error_propagation :
    (∀ (α : Type) (env : ExecuteEnv α) (history : List Message) (e : String),
       history ≠ [] →
       execute env history (ChatOutcome.badRequest e) =
         Except.error (RaisedError.badRequestError e))
    ∧ (∀ (α : Type) (env : ExecuteEnv α) (history : List Message) (e : String),
         history ≠ [] →
         execute env history (ChatOutcome.failure e) =
           Except.error (RaisedError.validationError "Error in fetching chat response.")) := by
  constructor <;>
  · intro α env history e hne
    cases history with
    | nil => exact absurd rfl hne
    | cons m rest => rfl

/-- Witness for C2: both error branches at concrete inputs. -/
theorem execute_error_propagation_witness :
    execute wit_env wit_history (ChatOutcome.badRequest "bad request body") =
      Except.error (RaisedError.badRequestError "bad request body") ∧
    execute wit_env wit_history (ChatOutcome.failure "socket closed") =
      Except.error (RaisedError.validationError "Error in fetching chat response.") :=
  ⟨execute_error_propagation.1 Unit wit_env wit_history "bad request body" (by decide),
   execute_error_propagation.2 Unit wit_env wit_history "socket closed" (by decide)⟩

/-- Claim C3: every tool message appended by `execute` carries a
`tool_call_id` equal to the id of one entry of the `tool_calls` array of
the assistant message appended in the same turn, and that assistant
message precedes every tool message in the returned sequence. -/
theorem tool_messages_linked {α : Type} (env : ExecuteEnv α) (history : List Message)
    (choice : ChatChoice) (res : List Message) (hne : history ≠ [])
    (hok : execute env history (ChatOutcome.success choice) = Except.ok res) :
    ∃ (a : Message) (tms : List Message),
      res = history ++ a :: tms ∧ a.role = "assistant" ∧
      ∀ m ∈ tms, ∃ (recs : List ToolCallRecord) (rec : ToolCallRecord),
        a.tool_calls = some recs ∧ rec ∈ recs ∧ m.tool_call_id = some rec.id := by
  obtain ⟨prs, hrn, hres⟩ := execute_success_ok env history choice res hok
  refine ⟨committed_assistant env history choice prs,
          prs.enum.map (fun p => mk_tool_message env p.1 p.2), hres,
          committed_assistant_role env history choice prs, ?_⟩
  intro m hm
  obtain ⟨j, hj, hmj⟩ := mem_enum_map prs _ m hm
  by_cases hfr : (choice.finish_reason == "tool_calls") = true
  · rw [hfr] at hrn
    have hfst := run_tool_calls_fst env.runTool choice.message.tool_calls prs hrn
    refine ⟨choice.message.tool_calls.map mk_tool_call_record,
            mk_tool_call_record (prs[j].1),
            committed_assistant_tool_calls env history choice prs hfr, ?_, ?_⟩
    · apply List.mem_map_of_mem
      rw [← hfst]
      exact List.mem_map_of_mem Prod.fst (prs.getElem_mem hj)
    · rw [hmj]; rfl
  · have hbeq : (choice.finish_reason == "tool_calls") = false := by
      simpa using hfr
    rw [hbeq] at hrn
    simp at hrn
    subst hrn
    simp at hj

/-- Witness for C3: the single-tool-call scenario. -/
theorem tool_messages_linked_witness :
    ∃ (a : Message) (tms : List Message),
      wit_history ++ [wit_msg_assistant, wit_msg_tool] = wit_history ++ a :: tms ∧
      a.role = "assistant" ∧
      ∀ m ∈ tms, ∃ (recs : List ToolCallRecord) (rec : ToolCallRecord),
        a.tool_calls = some recs ∧ rec ∈ recs ∧ m.tool_call_id = some rec.id :=
  tool_messages_linked wit_env wit_history wit_choice_tool
    (wit_history ++ [wit_msg_assistant, wit_msg_tool]) (by decide) (by rfl)

/-- Claim C4: `ensure_limit` is idempotent; any SQL text already containing
a case-insensitive `LIMIT` keyword is returned unchanged; EVERY other SQL
text comes back with its trailing statement terminators stripped and a
`LIMIT` clause appended, ending in a terminator, so that
`"SELECT * FROM account"` yields `"SELECT * FROM account LIMIT 20;"`
while `"SELECT * FROM account LIMIT 5;"` is returned unchanged. -/
theorem ensure_limit_contract :
    (∀ (sql : String) (d : Nat), ensure_limit (ensure_limit sql d) d = ensure_limit sql d)
    ∧ (∀ (sql : String) (d : Nat), hasLimitKeyword sql = true → ensure_limit sql d = sql)
    ∧ (∀ (sql : String) (d : Nat), hasLimitKeyword sql = false →
         ensure_limit sql d =
           (⟨rstrip_semi sql.data⟩ : String) ++ " LIMIT " ++ toString d ++ ";")
    ∧ ensure_limit "SELECT * FROM account" 20 = "SELECT * FROM account LIMIT 20;"
    ∧ ensure_limit "SELECT * FROM account LIMIT 5;" 20 = "SELECT * FROM account LIMIT 5;" := by
  refine ⟨ensure_limit_idem, ?_, ?_, by decide, by decide⟩
  · intro sql d h
    simp [ensure_limit, h]
  · intro sql d h
    rw [ensure_limit_not_has sql d h]
    apply String.ext
    simp [String.data_append, List.append_assoc]

/-- Witness for C4: the unchanged branch at a concrete capped statement and
the append branch at a concrete uncapped one. -/
theorem ensure_limit_contract_witness :
    ensure_limit "SELECT Name FROM customer LIMIT 7;" 20 = "SELECT Name FROM customer LIMIT 7;" ∧
    ensure_limit "SELECT Name FROM customer;" 20 =
      (⟨rstrip_semi "SELECT Name FROM customer;".data⟩ : String) ++ " LIMIT " ++ toString 20 ++ ";" :=
  ⟨ensure_limit_contract.2.1 "SELECT Name FROM customer LIMIT 7;" 20 (by decide),
   ensure_limit_contract.2.2.1 "SELECT Name FROM customer;" 20 (by decide)⟩

/-- Claim C5: the `text_to_sql` tool is total over its oracles — it never
raises.  When SQL generation raises, or execution of the capped SQL raises,
the tool returns the string `"Error generating or executing SQL: "`
followed by the exception message; when the datastore reports an empty
result it returns the literal `"No data found."`. -/
theorem text_to_sql_total_error_handling {β : Type} (toMd : β → String)
    (gen : String → Except String String) (exec : DatastoreExec β)
    (query : String) :
    (∀ e : String, gen query = Except.error e →
       text_to_sql toMd gen exec query = "Error generating or executing SQL: " ++ e)
    ∧ (∀ (q e : String), gen query = Except.ok q →
         exec (ensure_limit q 20) = Except.error e →
         text_to_sql toMd gen exec query = "Error generating or executing SQL: " ++ e)
    ∧ (∀ q : String, gen query = Except.ok q →
         exec (ensure_limit q 20) = Except.ok none →
         text_to_sql toMd gen exec query = "No data found.") := by
  refine ⟨?_, ?_, ?_⟩
  · intro e he; unfold text_to_sql; rw [he]
  · intro q e hq he; unfold text_to_sql; rw [hq]; simp only []; rw [he]
  · intro q hq he; unfold text_to_sql; rw [hq]; simp only []; rw [he]

/-- Witness for C5: the empty-result branch at concrete oracles. -/
theorem text_to_sql_total_error_handling_witness :
    text_to_sql wit_toMd wit_gen wit_exec_none "top 5 customers by revenue" = "No data found." :=
  (text_to_sql_total_error_handling wit_toMd wit_gen wit_exec_none
    "top 5 customers by revenue").2.2 "SELECT * FROM account" rfl rfl

/-- Claim C6: `process_response_with_quality_improvement` returns the
original response unchanged whenever improvement is disabled, whenever the
evaluation model call raises, and whenever the improvement model call
raises — for every user question, response and SQL-result context. -/
theorem quality_improvement_fallback :
    (∀ (rq ri : List (String × String)) (qchat : QChat) (uq : String)
       (resp sqlr : Option String),
       process_response_with_quality_improvement rq ri qchat uq resp sqlr false = resp)
    ∧ (∀ (rq ri : List (String × String)) (qchat : QChat) (uq : String)
         (resp sqlr : Option String) (e : String),
         qchat (rq ++ [("user", evaluation_user_content uq resp sqlr)]) = Except.error e →
         process_response_with_quality_improvement rq ri qchat uq resp sqlr true = resp)
    ∧ (∀ (rq ri : List (String × String)) (qchat : QChat) (uq : String)
         (resp sqlr : Option String) (e : String),
         qchat (ri ++ [("user", improvement_user_content uq resp
           (evaluate_response_quality rq qchat uq resp sqlr).1)]) = Except.error e →
         process_response_with_quality_improvement rq ri qchat uq resp sqlr true = resp) := by
  refine ⟨fun rq ri qchat uq resp sqlr => rfl, ?_, ?_⟩
  · intro rq ri qchat uq resp sqlr e he
    unfold process_response_with_quality_improvement evaluate_response_quality
    rw [he]
    rfl
  · intro rq ri qchat uq resp sqlr e he
    unfold process_response_with_quality_improvement
    by_cases hv : (evaluate_response_quality rq qchat uq resp sqlr).2
    · rw [if_neg (by simp), if_pos hv]
      unfold improve_response
      rw [he]
    · rw [if_neg (by simp), if_neg hv]

/-- Witness for C6: an always-raising quality oracle leaves the response
unchanged. -/
theorem quality_improvement_fallback_witness :
    process_response_with_quality_improvement [] [] wit_qchat_err
      "What is Q1 revenue?" (some "Q1 revenue was X.") none true = some "Q1 revenue was X." :=
  quality_improvement_fallback.2.1 [] [] wit_qchat_err
    "What is Q1 revenue?" (some "Q1 revenue was X.") none "down" rfl

/-- Claim C7: the needs-improvement decision is the deterministic
case-insensitive substring test of `_assess_improvement_needed` over the
fixed keyword set: any critique whose lowered text contains a deficiency
keyword is classified `true`, any critique containing none is classified
`false`; in particular a critique containing `"UnClEaR"` is flagged. -/
theorem assess_keyword_membership :
    (∀ t : String,
       (∃ k ∈ improvement_keywords, containsSubstring k.data (py_lower t).data = true) →
       assess_improvement_needed t = true)
    ∧ (∀ t : String,
         (∀ k ∈ improvement_keywords, containsSubstring k.data (py_lower t).data = false) →
         assess_improvement_needed t = false)
    ∧ assess_improvement_needed "The trend is UnClEaR overall" = true
    ∧ assess_improvement_needed "Excellent work, fully accurate." = false := by
  refine ⟨?_, ?_, by decide, by decide⟩
  · intro t ⟨k, hk, hsub⟩
    unfold assess_improvement_needed
    exact List.any_eq_true.mpr ⟨k, hk, hsub⟩
  · intro t hall
    unfold assess_improvement_needed
    apply List.any_eq_false.mpr
    intro k hk
    simp [hall k hk]

/-- Witness for C7: the keyword-containment direction at a concrete
critique. -/
theorem assess_keyword_membership_witness :
    assess_improvement_needed "Numbers are MISSING here" = true :=
  assess_keyword_membership.1 "Numbers are MISSING here" (by decide)

/-- Claim C8: in the streaming path, a tool call whose execution raises
produces exactly one in-band event
`{type: error, content: "Tool call error: <message>", finish_reason: error}`,
and the stream goes on producing the events of the remaining tool calls of
the same chunk, of the remaining chunks, and of the stream ending. -/
theorem execute_stream_tool_error_containment {α : Type} (dumps : α → String)
    (runTool : StreamToolCall → Except String (ToolRun α)) (history : List Message)
    (pre post : List StreamToolCall) (tc : StreamToolCall) (fn : ToolCallFunction)
    (rest : List StreamChunk) (fin : StreamEnd) (e : String)
    (hne : history ≠ []) (hfn : tc.function = some fn)
    (he : runTool tc = Except.error e) :
    execute_stream dumps runTool history
      ({ delta := { content := none, tool_calls := some (pre ++ tc :: post) },
         finish_reason := some "tool_calls" } :: rest) fin =
    Except.ok (pre.flatMap (stream_tool_events dumps runTool)
      ++ ({ type := "error", content := "Tool call error: " ++ e,
            finish_reason := some "error" } : StreamEvent)
      :: (post.flatMap (stream_tool_events dumps runTool)
          ++ rest.flatMap (process_stream_chunk dumps runTool)
          ++ stream_trailing fin)) := by
  unfold execute_stream
  rw [if_neg (by simpa using hne)]
  congr 1
  rw [List.flatMap_cons]
  have hchunk : process_stream_chunk dumps runTool
      { delta := { content := none, tool_calls := some (pre ++ tc :: post) },
        finish_reason := some "tool_calls" } =
      (pre ++ tc :: post).flatMap (stream_tool_events dumps runTool) := rfl
  rw [hchunk, List.flatMap_append, List.flatMap_cons]
  have htc : stream_tool_events dumps runTool tc =
      [{ type := "error", content := "Tool call error: " ++ e, finish_reason := some "error" }] := by
    unfold stream_tool_events
    rw [hfn]
    simp only []
    rw [he]
  rw [htc]
  simp [List.append_assoc]

/-- Witness for C8: a one-chunk stream whose only tool call raises. -/
theorem execute_stream_tool_error_containment_witness :
    execute_stream wit_dumps wit_srun_err wit_history
      ({ delta := { content := none, tool_calls := some ([] ++ wit_stc :: []) },
         finish_reason := some "tool_calls" } :: []) StreamEnd.done =
    Except.ok (([] : List StreamToolCall).flatMap (stream_tool_events wit_dumps wit_srun_err)
      ++ ({ type := "error", content := "Tool call error: " ++ "boom",
            finish_reason := some "error" } : StreamEvent)
      :: (([] : List StreamToolCall).flatMap (stream_tool_events wit_dumps wit_srun_err)
          ++ ([] : List StreamChunk).flatMap (process_stream_chunk wit_dumps wit_srun_err)
          ++ stream_trailing StreamEnd.done)) :=
  execute_stream_tool_error_containment wit_dumps wit_srun_err wit_history
    [] [] wit_stc { name := "text_to_sql", arguments := "query args" } [] StreamEnd.done "boom"
    (by decide) rfl rfl

/-- Claim C9: every message built by `format_message` has the supplied
fresh UUID string as its id and a ONE-ELEMENT TUPLE wrapping the timestamp
value as its timestamp; consequently the assistant and tool messages
appended by `execute` carry the UUID and timestamp drawn at distinct
supply indices, each timestamp wrapped in a one-element tuple. -/
theorem format_message_id_timestamp :
    (∀ (uuid ts role : String) (content : Option String)
       (tcs : Option (List ToolCallRecord)) (tcid fr : Option String),
       (format_message uuid ts role content tcs tcid fr).id = some uuid ∧
       (format_message uuid ts role content tcs tcid fr).timestamp = some [ts])
    ∧ (∀ (α : Type) (env : ExecuteEnv α) (history : List Message)
         (choice : ChatChoice) (res : List Message),
         execute env history (ChatOutcome.success choice) = Except.ok res →
         ∃ (a : Message) (tms : List Message),
           res = history ++ a :: tms ∧
           a.id = some (env.fresh 0) ∧ a.timestamp = some [env.tstamp 0] ∧
           ∀ (j : Nat) (hj : j < tms.length),
             tms[j].id = some (env.fresh (j + 1)) ∧
             tms[j].timestamp = some [env.tstamp (j + 1)]) := by
  constructor
  · intro uuid ts role content tcs tcid fr
    exact ⟨rfl, rfl⟩
  · intro α env history choice res hok
    obtain ⟨prs, hrn, hres⟩ := execute_success_ok env history choice res hok
    obtain ⟨hid, hts⟩ := committed_assistant_id env history choice prs
    refine ⟨committed_assistant env history choice prs,
            prs.enum.map (fun p => mk_tool_message env p.1 p.2), hres, hid, hts, ?_⟩
    intro j hj
    have hjp : j < prs.enum.length := by simpa using hj
    have hjl : j < prs.length := by simpa [List.enum_length] using hjp
    have : (prs.enum.map (fun p => mk_tool_message env p.1 p.2))[j] =
        mk_tool_message env j prs[j] := by
      rw [List.getElem_map, List.getElem_enum]
    rw [this]
    exact ⟨rfl, rfl⟩

/-- Witness for C9: the appended assistant and tool messages of the
single-tool-call scenario draw supply indices 0 and 1. -/
theorem format_message_id_timestamp_witness :
    ∃ (a : Message) (tms : List Message),
      wit_history ++ [wit_msg_assistant, wit_msg_tool] = wit_history ++ a :: tms ∧
      a.id = some (wit_env.fresh 0) ∧ a.timestamp = some [wit_env.tstamp 0] ∧
      ∀ (j : Nat) (hj : j < tms.length),
        tms[j].id = some (wit_env.fresh (j + 1)) ∧
        tms[j].timestamp = some [wit_env.tstamp (j + 1)] :=
  format_message_id_timestamp.2 Unit wit_env wit_history wit_choice_tool
    (wit_history ++ [wit_msg_assistant, wit_msg_tool]) (by rfl)

/-- Claim C10: a stream chunk whose delta content is absent or the empty
string and which carries no finish reason produces no event at all: it is
silently dropped and the stream of the remaining chunks is unchanged. -/
theorem execute_stream_empty_chunk_dropped {α : Type} (dumps : α → String)
    (runTool : StreamToolCall → Except String (ToolRun α)) (history : List Message)
    (chunk : StreamChunk) (rest : List StreamChunk) (fin : StreamEnd)
    (hne : history ≠ [])
    (hc : chunk.delta.content = none ∨ chunk.delta.content = some "")
    (hf : chunk.finish_reason = none) :
    process_stream_chunk dumps runTool chunk = [] ∧
    execute_stream dumps runTool history (chunk :: rest) fin =
      execute_stream dumps runTool history rest fin := by
  have hct : py_truthy_str chunk.delta.content = false := by
    rcases hc with h | h <;> rw [h] <;> rfl
  have hft : py_truthy_str chunk.finish_reason = false := by rw [hf]; rfl
  have hempty : process_stream_chunk dumps runTool chunk = [] := by
    unfold process_stream_chunk
    rw [hct, hft]
    rfl
  refine ⟨hempty, ?_⟩
  unfold execute_stream
  rw [if_neg (by simpa using hne), if_neg (by simpa using hne)]
  rw [List.flatMap_cons, hempty, List.nil_append]

/-- Witness for C10: an empty-string content delta chunk is dropped. -/
theorem execute_stream_empty_chunk_dropped_witness :
    process_stream_chunk wit_dumps wit_srun_err
      { delta := { content := some "", tool_calls := none }, finish_reason := none } = [] ∧
    execute_stream wit_dumps wit_srun_err wit_history
      ({ delta := { content := some "", tool_calls := none }, finish_reason := none } :: [])
      StreamEnd.done =
    execute_stream wit_dumps wit_srun_err wit_history [] StreamEnd.done :=
  execute_stream_empty_chunk_dropped wit_dumps wit_srun_err wit_history
    { delta := { content := some "", tool_calls := none }, finish_reason := none }
    [] StreamEnd.done (by decide) (Or.inr rfl) rfl
